import Mathlib

/-!
# Verification of the Ecole Directe API helper

Shallow embedding of `custom_components/ecole_directe/ecole_directe_helper.py`.

JSON values decoded by `response.json()` / `json.load` are modelled by the
inductive type `JValue` (numeric JSON values are modelled as integers; the
module never does float arithmetic on them).  Python `dict` payloads are
association lists with unique keys; lookup takes the first binding.
Exceptions are modelled by `Except` with the exception classes the module
can raise or meet (`RequestError`, `QCMError`, `KeyError`, `TypeError`, ...).
The HTTP layer is an oracle: each POST's response body is supplied by the
environment, either a JSON value or a non-JSON body.
-/

/-- A decoded JSON value (Python value produced by `json` decoding). -/
inductive JValue where
  | jnull
  | jbool (b : Bool)
  | jnum (n : Int)
  | jstr (s : String)
  | jarr (xs : List JValue)
  | jobj (fields : List (String × JValue))

/-- Python `v == n` for an int literal `n` (`True == 1` aside, JSON codes
are never booleans in the branches modelled; a bool never equals 200/250). -/
def JValue.eqNum (v : JValue) (n : Int) : Bool :=
  match v with
  | .jnum m => m = n
  | _ => false

/-- Python `v == s` for a string literal `s`. -/
def JValue.eqStr (v : JValue) (s : String) : Bool :=
  match v with
  | .jstr t => t = s
  | _ => false

/-- Python `v is None`. -/
def JValue.isNull (v : JValue) : Bool :=
  match v with
  | .jnull => true
  | _ => false

/-- A decoded JSON object / Python dict: association list, unique keys. -/
abbrev Dict := List (String × JValue)

/-- First binding of a key in a dict (Python dict lookup / `in` test). -/
def jfind (d : Dict) (k : String) : Option JValue :=
  match d with
  | [] => none
  | (k2, v) :: rest => if k2 = k then some v else jfind rest k

/-- `d[k] = v` on a Python dict: replace the first binding or append. -/
def dictInsert (d : Dict) (k : String) (v : JValue) : Dict :=
  match d with
  | [] => [(k, v)]
  | (k2, v2) :: rest =>
    if k2 = k then (k2, v) :: rest else (k2, v2) :: dictInsert rest k v

/-- Key lookup on a JSON value that is expected to be an object; `none`
both when the key is absent and when the value is not an object.  Used to
model `x["data"] if "data" in x else None` on bodies `get_response` has
already guaranteed to be objects. -/
def jGet (v : JValue) (k : String) : Option JValue :=
  match v with
  | .jobj fields => jfind fields k
  | _ => none

/-- The errors `get_response` can raise. -/
inductive GetRespErr where
  /-- `RequestError`: the response body was not JSON. -/
  | requestErrorNotJson
  /-- `RequestError`: the parsed body has no `code` member. -/
  | requestErrorNoCode
  /-- `RequestError` built from the provider `code` and `message`. -/
  | requestErrorBadCode (code : JValue) (message : JValue)
  /-- `KeyError`: `resp_json["message"]` with no `message` key. -/
  | keyErrorMessage
  /-- `TypeError`: `in` test or subscript on a non-dict body. -/
  | typeErrorBody

/-- Is this error a `RequestError` (the module's transport-error class)? -/
def GetRespErr.isRequestError : GetRespErr → Bool
  | .requestErrorNotJson => true
  | .requestErrorNoCode => true
  | .requestErrorBadCode _ _ => true
  | .keyErrorMessage => false
  | .typeErrorBody => false

/-- The Python exception classes the helper module can raise or meet.
`qcm` is `QCMError`; `transport` wraps the errors raised inside
`get_response`. -/
inductive PyExn where
  | transport (e : GetRespErr)
  | keyError (k : String)
  | indexError
  | typeError
  /-- `binascii.Error` / `UnicodeDecodeError` from base64 or utf-8 decoding. -/
  | valueError
  /-- failure of `open` / `json.load` on the qcm.json cache file. -/
  | fileError
  /-- `AttributeError` (method call on an attribute of the wrong shape). -/
  | attributeError
  /-- `QCMError` with its message. -/
  | qcm (msg : String)

/-- Is this exception a `QCMError`? -/
def PyExn.isQcm : PyExn → Bool
  | .qcm _ => true
  | _ => false

/-- `c :: t` starts with the needle (char-list prefix test). -/
def listStartsWith : List Char → List Char → Bool
  | _, [] => true
  | [], _ :: _ => false
  | a :: as, b :: bs => a = b && listStartsWith as bs

/-- Substring test on char lists (Python `needle in haystack` on `str`). -/
def listHasSub (needle : List Char) : List Char → Bool
  | [] => needle.isEmpty
  | c :: t => listStartsWith (c :: t) needle || listHasSub needle t

/-- Python truthiness of a decoded JSON value. -/
def pyTruthy : JValue → Bool
  | .jnull => false
  | .jbool b => b
  | .jnum n => n ≠ 0
  | .jstr s => s ≠ ""
  | .jarr xs => !xs.isEmpty
  | .jobj fields => !fields.isEmpty

/-- Python falsiness of a value-or-None (`if not cn_et_cv:`). -/
def pyFalsyOpt : Option JValue → Bool
  | none => true
  | some v => !pyTruthy v

/-- Python subscript `v[k]` with a string key: dict lookup (`KeyError` when
absent), `TypeError` on every other decoded-JSON shape. -/
def pyGetItem (v : JValue) (k : String) : Except PyExn JValue :=
  match v with
  | .jobj fields =>
    match jfind fields k with
    | some x => .ok x
    | none => .error (.keyError k)
  | _ => .error .typeError

/-- Python subscript `v[0]`: list head (`IndexError` when empty), first
character of a string, `KeyError` on a dict (JSON object keys are strings,
so the int key `0` is never present), `TypeError` otherwise. -/
def pyIndexZero (v : JValue) : Except PyExn JValue :=
  match v with
  | .jarr [] => .error .indexError
  | .jarr (x :: _) => .ok x
  | .jstr s =>
    match s.toList with
    | [] => .error .indexError
    | c :: _ => .ok (.jstr (String.mk [c]))
  | .jobj _ => .error (.keyError "0")
  | _ => .error .typeError

/-- Python `len(v)`: strings, lists and dicts have a length, `TypeError`
otherwise. -/
def pyLen (v : JValue) : Except PyExn Nat :=
  match v with
  | .jstr s => .ok s.length
  | .jarr xs => .ok xs.length
  | .jobj fields => .ok fields.length
  | _ => .error .typeError

/-- Python `for x in v`: a list iterates its elements, a string its
characters, a dict its keys; `TypeError` otherwise. -/
def pyIterate (v : JValue) : Except PyExn (List JValue) :=
  match v with
  | .jarr xs => .ok xs
  | .jstr s => .ok (s.toList.map fun c => .jstr (String.mk [c]))
  | .jobj fields => .ok (fields.map fun kv => .jstr kv.1)
  | _ => .error .typeError

/-- Python `k in v` for a string key: dict key test, list membership,
substring test on a string, `TypeError` otherwise. -/
def pyContains (v : JValue) (k : String) : Except PyExn Bool :=
  match v with
  | .jobj fields => .ok (jfind fields k).isSome
  | .jarr xs => .ok (xs.any fun x => x.eqStr k)
  | .jstr s => .ok (listHasSub k.toList s.toList)
  | _ => .error .typeError

/-! ## base64 and UTF-8, as used by the handshake

`base64.b64decode(x).decode("utf-8")` and
`base64.b64encode(bytes(x, "utf-8")).decode("ascii")` are modelled by
executable codecs over byte lists.  Decoding is modelled for well-formed
input (strict padding, no surrogate code points); malformed input yields
`none`, standing for the `binascii.Error` / `UnicodeDecodeError` paths. -/

/-- The standard base64 alphabet. -/
def b64Chars : List Char :=
  "ABCDEFGHIJKLMNOPQRSTUVWXYZabcdefghijklmnopqrstuvwxyz0123456789+/".toList

/-- Character for a 6-bit group. -/
def b64CharOf (n : Nat) : Char := b64Chars.getD n 'A'

/-- Value of a base64 alphabet character. -/
def b64ValOf (c : Char) : Option Nat := b64Chars.findIdx? (· = c)

/-- base64-encode a byte list. -/
def b64EncodeBytes : List Nat → List Char
  | [] => []
  | [a] => [b64CharOf (a >>> 2), b64CharOf ((a % 4) <<< 4), '=', '=']
  | [a, b] =>
    [b64CharOf (a >>> 2), b64CharOf (((a % 4) <<< 4) ||| (b >>> 4)),
     b64CharOf ((b % 16) <<< 2), '=']
  | a :: b :: c :: rest =>
    b64CharOf (a >>> 2) :: b64CharOf (((a % 4) <<< 4) ||| (b >>> 4)) ::
    b64CharOf (((b % 16) <<< 2) ||| (c >>> 6)) :: b64CharOf (c % 64) ::
    b64EncodeBytes rest

/-- base64-decode a char list (strict: 4-char groups, `=` padding only at
the end). -/
def b64DecodeChars : List Char → Option (List Nat)
  | [] => some []
  | a :: b :: c :: d :: rest => do
    let va ← b64ValOf a
    let vb ← b64ValOf b
    if c = '=' then
      if d = '=' ∧ rest = [] then
        some [(va <<< 2) ||| (vb >>> 4)]
      else none
    else do
      let vc ← b64ValOf c
      if d = '=' then
        if rest = [] then
          some [(va <<< 2) ||| (vb >>> 4), ((vb % 16) <<< 4) ||| (vc >>> 2)]
        else none
      else do
        let vd ← b64ValOf d
        let tail ← b64DecodeChars rest
        some (((va <<< 2) ||| (vb >>> 4)) ::
              (((vb % 16) <<< 4) ||| (vc >>> 2)) ::
              (((vc % 4) <<< 6) ||| vd) :: tail)
  | _ => none

/-- UTF-8 encoding of one code point. -/
def utf8EncodeChar (c : Char) : List Nat :=
  let n := c.toNat
  if n < 0x80 then [n]
  else if n < 0x800 then
    [0xC0 ||| (n >>> 6), 0x80 ||| (n % 64)]
  else if n < 0x10000 then
    [0xE0 ||| (n >>> 12), 0x80 ||| ((n >>> 6) % 64), 0x80 ||| (n % 64)]
  else
    [0xF0 ||| (n >>> 18), 0x80 ||| ((n >>> 12) % 64),
     0x80 ||| ((n >>> 6) % 64), 0x80 ||| (n % 64)]

/-- UTF-8 encoding of a string (`bytes(s, "utf-8")`). -/
def utf8Encode (s : String) : List Nat :=
  (s.toList.map utf8EncodeChar).flatten

/-- Is this byte a UTF-8 continuation byte, and its payload. -/
def utf8Cont (b : Nat) : Option Nat :=
  if 0x80 ≤ b ∧ b < 0xC0 then some (b % 64) else none

/-- UTF-8 decoding as a byte-at-a-time state machine: `need` continuation
bytes still expected, `acc` the code-point bits accumulated so far. -/
def utf8DecodeAux : Nat → Nat → List Nat → Option (List Char)
  | 0, _, [] => some []
  | _ + 1, _, [] => none
  | 0, _, b :: rest =>
    if b < 0x80 then (Char.ofNat b :: ·) <$> utf8DecodeAux 0 0 rest
    else if 0xC2 ≤ b ∧ b < 0xE0 then utf8DecodeAux 1 (b - 0xC0) rest
    else if 0xE0 ≤ b ∧ b < 0xF0 then utf8DecodeAux 2 (b - 0xE0) rest
    else if 0xF0 ≤ b ∧ b < 0xF5 then utf8DecodeAux 3 (b - 0xF0) rest
    else none
  | need + 1, acc, b :: rest =>
    match utf8Cont b with
    | none => none
    | some p =>
      if need = 0 then
        if Nat.isValidChar ((acc <<< 6) ||| p) then
          (Char.ofNat ((acc <<< 6) ||| p) :: ·) <$> utf8DecodeAux 0 0 rest
        else none
      else utf8DecodeAux need ((acc <<< 6) ||| p) rest

/-- UTF-8 decoding of a byte list (`bs.decode("utf-8")`); `none` on
malformed sequences or invalid code points. -/
def utf8DecodeList (l : List Nat) : Option (List Char) :=
  utf8DecodeAux 0 0 l

/-- `base64.b64decode(s).decode("utf-8")`. -/
def b64Utf8Decode (s : String) : Option String :=
  (b64DecodeChars s.toList).bind fun bytes =>
    (utf8DecodeList bytes).map String.mk

/-- `base64.b64encode(bytes(s, "utf-8")).decode("ascii")`. -/
def b64Utf8Encode (s : String) : String :=
  String.mk (b64EncodeBytes (utf8Encode s))

/-! ## Transport: `get_response` -/

/-- The body of one HTTP response, as seen after `response.json()`:
either not JSON at all, or a decoded JSON value. -/
inductive HttpResp where
  | notJson
  | json (body : JValue)

/-- `get_response(token, url, payload)` after the POST: classify the
response body.  `token` is the Python value passed (`jnull` is Python
`None`).  Mirrors lines 18-45 of the source:
raise `RequestError` when the body is not JSON; raise `RequestError` when
the body lacks a `code` member; return the body when `code == 250` and no
token; raise `RequestError` built from `code` and `message` when
`code != 200` (a `KeyError` when the `message` key is absent); else return
the body.  Non-dict JSON bodies follow the Python semantics of
`"code" not in resp_json` (list membership / substring test, `TypeError`
for scalars) and then `TypeError` on the subscript. -/
def get_response (token : JValue) (resp : HttpResp) : Except GetRespErr JValue :=
  match resp with
  | .notJson => .error .requestErrorNotJson
  | .json body =>
    match body with
    | .jobj fields =>
      match jfind fields "code" with
      | none => .error .requestErrorNoCode
      | some code =>
        if code.eqNum 250 && token.isNull then .ok body
        else if !code.eqNum 200 then
          match jfind fields "message" with
          | none => .error .keyErrorMessage
          | some msg => .error (.requestErrorBadCode code msg)
        else .ok body
    | .jarr xs =>
      if xs.any fun x => x.eqStr "code" then .error .typeErrorBody
      else .error .requestErrorNoCode
    | .jstr s =>
      if listHasSub "code".toList s.toList then .error .typeErrorBody
      else .error .requestErrorNoCode
    | _ => .error .typeErrorBody

example : b64Utf8Encode "42" = "NDI=" := by decide
example : b64Utf8Decode "NDI=" = some "42" := by decide
example : b64Utf8Encode "Q" = "UQ==" := by decide
example : b64Utf8Decode "UQ==" = some "Q" := by decide

/-! ## Domain mapper

Records are built field by field with the source's repeated
`if key in data: copy else: default` blocks, transcribed by `fieldOr`.
Attributes that some path of `__init__` leaves unset are modelled as
`Option JValue` fields with `none` for "attribute never assigned". -/

/-- `data[k] if k in data else dflt` on a JSON object. -/
def fieldOr (d : Dict) (k : String) (dflt : JValue) : JValue :=
  match jfind d k with
  | some v => v
  | none => dflt

/-- `EDHomework` (lines 144-192): every field guarded, default `""`;
`pour_le` is the externally supplied date argument. -/
structure EDHomework where
  matiere : JValue
  code_matiere : JValue
  a_faire : JValue
  id_devoir : JValue
  documents_a_faire : JValue
  donne_le : JValue
  pour_le : JValue
  effectue : JValue
  interrogation : JValue
  rendre_en_ligne : JValue
  nb_jour_max_rendu_devoir : JValue
  contenu : JValue

def EDHomework.ofData (data : Dict) (pour_le : JValue) : EDHomework where
  matiere := fieldOr data "matiere" (.jstr "")
  code_matiere := fieldOr data "codeMatiere" (.jstr "")
  a_faire := fieldOr data "aFaire" (.jstr "")
  id_devoir := fieldOr data "idDevoir" (.jstr "")
  documents_a_faire := fieldOr data "documentsAFaire" (.jstr "")
  donne_le := fieldOr data "donneLe" (.jstr "")
  pour_le := pour_le
  effectue := fieldOr data "effectue" (.jstr "")
  interrogation := fieldOr data "interrogation" (.jstr "")
  rendre_en_ligne := fieldOr data "rendreEnLigne" (.jstr "")
  nb_jour_max_rendu_devoir := fieldOr data "nbJourMaxRenduDevoir" (.jstr "")
  contenu := fieldOr data "contenu" (.jstr "")

/-- `EDGrade` (lines 195-286): every field guarded, default `""`. -/
structure EDGrade where
  id : JValue
  devoir : JValue
  code_periode : JValue
  code_matiere : JValue
  libelle_matiere : JValue
  code_sous_matiere : JValue
  type_devoir : JValue
  en_lettre : JValue
  commentaire : JValue
  unc_sujet : JValue
  unc_corrige : JValue
  coef : JValue
  note_sur : JValue
  valeur : JValue
  non_significatif : JValue
  date : JValue
  date_saisie : JValue
  valeurisee : JValue
  moyenne_classe : JValue
  min_classe : JValue
  max_classe : JValue
  elements_programme : JValue

def EDGrade.ofData (data : Dict) : EDGrade where
  id := fieldOr data "id" (.jstr "")
  devoir := fieldOr data "devoir" (.jstr "")
  code_periode := fieldOr data "codePeriode" (.jstr "")
  code_matiere := fieldOr data "codeMatiere" (.jstr "")
  libelle_matiere := fieldOr data "libelleMatiere" (.jstr "")
  code_sous_matiere := fieldOr data "codeSousMatiere" (.jstr "")
  type_devoir := fieldOr data "typeDevoir" (.jstr "")
  en_lettre := fieldOr data "enLettre" (.jstr "")
  commentaire := fieldOr data "commentaire" (.jstr "")
  unc_sujet := fieldOr data "uncSujet" (.jstr "")
  unc_corrige := fieldOr data "uncCorrige" (.jstr "")
  coef := fieldOr data "coef" (.jstr "")
  note_sur := fieldOr data "noteSur" (.jstr "")
  valeur := fieldOr data "valeur" (.jstr "")
  non_significatif := fieldOr data "nonSignificatif" (.jstr "")
  date := fieldOr data "date" (.jstr "")
  date_saisie := fieldOr data "dateSaisie" (.jstr "")
  valeurisee := fieldOr data "valeurisee" (.jstr "")
  moyenne_classe := fieldOr data "moyenneClasse" (.jstr "")
  min_classe := fieldOr data "minClasse" (.jstr "")
  max_classe := fieldOr data "maxClasse" (.jstr "")
  elements_programme := fieldOr data "elementsProgramme" (.jstr "")

/-- `EDLesson` (lines 288-407).  Note the source typo at line 323: when
`end_date` is absent, the `else` branch assigns `self.tend_date = ""`
instead of `self.end_date`, so the `end_date` attribute stays unset
(`none` here) and a stray `tend_date` attribute appears. -/
structure EDLesson where
  id : JValue
  text : JValue
  matiere : JValue
  codeMatiere : JValue
  typeCours : JValue
  start_date : JValue
  end_date : Option JValue
  tend_date : Option JValue
  color : JValue
  dispensable : JValue
  dispense : JValue
  prof : JValue
  salle : JValue
  classe : JValue
  classeId : JValue
  classeCode : JValue
  groupe : JValue
  groupeCode : JValue
  groupeId : JValue
  icone : JValue
  isFlexible : JValue
  isModifie : JValue
  contenuDeSeance : JValue
  devoirAFaire : JValue
  isAnnule : JValue

def EDLesson.ofData (data : Dict) : EDLesson where
  id := fieldOr data "id" (.jstr "")
  text := fieldOr data "text" (.jstr "")
  matiere := fieldOr data "matiere" (.jstr "")
  codeMatiere := fieldOr data "codeMatiere" (.jstr "")
  typeCours := fieldOr data "typeCours" (.jstr "")
  start_date := fieldOr data "start_date" (.jstr "")
  end_date := jfind data "end_date"
  tend_date := match jfind data "end_date" with
    | some _ => none
    | none => some (.jstr "")
  color := fieldOr data "color" (.jstr "")
  dispensable := fieldOr data "dispensable" (.jbool false)
  dispense := fieldOr data "dispense" (.jstr "")
  prof := fieldOr data "prof" (.jstr "")
  salle := fieldOr data "salle" (.jstr "")
  classe := fieldOr data "classe" (.jstr "")
  classeId := fieldOr data "classeId" (.jstr "")
  classeCode := fieldOr data "classeCode" (.jstr "")
  groupe := fieldOr data "groupe" (.jstr "")
  groupeCode := fieldOr data "groupeCode" (.jstr "")
  groupeId := fieldOr data "groupeId" (.jstr "")
  icone := fieldOr data "icone" (.jstr "")
  isFlexible := fieldOr data "isFlexible" (.jbool false)
  isModifie := fieldOr data "isModifie" (.jbool false)
  contenuDeSeance := fieldOr data "contenuDeSeance" (.jbool false)
  devoirAFaire := fieldOr data "devoirAFaire" (.jbool false)
  isAnnule := fieldOr data "isAnnule" (.jbool false)

/-- `EDEleve` attributes.  `classe_id` / `classe_name` are unset (`none`)
when the JSON construction path meets a record without a `classe` key. -/
structure EDEleve where
  classe_id : Option JValue
  classe_name : Option JValue
  eleve_id : JValue
  eleve_lastname : JValue
  eleve_firstname : JValue
  establishment : JValue
  modules : List JValue

/-- The `data is None` keyword path of `EDEleve.__init__` (lines 111-118):
every attribute is assigned from the arguments. -/
def EDEleve.mkKw (establishment eleve_id first_name last_name classe_id
    classe_name : JValue) (modules : List JValue) : EDEleve where
  classe_id := some classe_id
  classe_name := some classe_name
  eleve_id := eleve_id
  eleve_lastname := last_name
  eleve_firstname := first_name
  establishment := establishment
  modules := modules

/-- `for module in v: if module["enable"]: modules.append(module["code"])`
(lines 72-74 and 128-130; the two loops are identical). -/
def collectModules (v : JValue) : Except PyExn (List JValue) := do
  let items ← pyIterate v
  items.foldlM (fun acc m => do
    let en ← pyGetItem m "enable"
    if pyTruthy en then do
      let code ← pyGetItem m "code"
      pure (acc ++ [code])
    else pure acc) []

/-- The `data` path of `EDEleve.__init__` (lines 119-130): unguarded
subscripts, so a record without `id`, `nom`, `prenom` or `modules` raises
`KeyError`; without `classe` the classe attributes are simply not set. -/
def EDEleve.ofData (data : JValue) (establishment : JValue) :
    Except PyExn EDEleve := do
  let hasClasse ← pyContains data "classe"
  let classePair ←
    if hasClasse then do
      let classe ← pyGetItem data "classe"
      let cid ← pyGetItem classe "id"
      let classe2 ← pyGetItem data "classe"
      let cname ← pyGetItem classe2 "libelle"
      pure (some cid, some cname)
    else pure ((none : Option JValue), (none : Option JValue))
  let eid ← pyGetItem data "id"
  let nom ← pyGetItem data "nom"
  let prenom ← pyGetItem data "prenom"
  let modulesV ← pyGetItem data "modules"
  let modules ← collectModules modulesV
  pure { classe_id := classePair.1, classe_name := classePair.2,
         eleve_id := eid, eleve_lastname := nom, eleve_firstname := prenom,
         establishment := establishment, modules := modules }

/-- Python `str.lower()`, modelled as ASCII case folding. -/
def pyLower (s : String) : String :=
  String.mk (s.toList.map Char.toLower)

/-- `re.sub("[^A-Za-z]", "_", s)`: every character outside `A-Za-z`
becomes one underscore (`Char.isAlpha` is exactly ASCII `A-Za-z`). -/
def reSubNonAlpha (s : String) : String :=
  String.mk (s.toList.map fun c => if c.isAlpha then c else '_')

/-- `EDEleve.get_fullname_lower` (lines 132-137). -/
def EDEleve.get_fullname_lower (e : EDEleve) : Except PyExn String :=
  match e.eleve_firstname, e.eleve_lastname with
  | .jstr f, .jstr l =>
    .ok (reSubNonAlpha (pyLower f) ++ "_" ++ reSubNonAlpha (pyLower l))
  | _, _ => .error .attributeError

/-- `EDEleve.get_fullname` (lines 139-141). -/
def EDEleve.get_fullname (e : EDEleve) : Except PyExn String :=
  match e.eleve_firstname, e.eleve_lastname with
  | .jstr f, .jstr l => .ok (f ++ " " ++ l)
  | _, _ => .error .typeError

/-- `EDSession` (lines 62-94). -/
structure EDSession where
  token : JValue
  id : JValue
  identifiant : JValue
  idLogin : JValue
  accountType : JValue
  modules : List JValue
  eleves : List EDEleve

/-- `EDSession.__init__` transcribed access by access, in source order. -/
def EDSession.ofJson (data : JValue) : Except PyExn EDSession := do
  let token ← pyGetItem data "token"
  let d ← pyGetItem data "data"
  let accounts ← pyGetItem d "accounts"
  let acc0 ← pyIndexZero accounts
  let id ← pyGetItem acc0 "id"
  let identifiant ← pyGetItem acc0 "identifiant"
  let idLogin ← pyGetItem acc0 "idLogin"
  let accountType ← pyGetItem acc0 "typeCompte"
  let modulesV ← pyGetItem acc0 "modules"
  let modules ← collectModules modulesV
  let eleves ←
    if accountType.eqStr "E" then do
      let etab ← pyGetItem acc0 "nomEtablissement"
      let prenom ← pyGetItem acc0 "prenom"
      let nom ← pyGetItem acc0 "nom"
      let profile ← pyGetItem acc0 "profile"
      let classe ← pyGetItem profile "classe"
      let cid ← pyGetItem classe "id"
      let profile2 ← pyGetItem acc0 "profile"
      let classe2 ← pyGetItem profile2 "classe"
      let clib ← pyGetItem classe2 "libelle"
      pure [EDEleve.mkKw etab id prenom nom cid clib modules]
    else do
      let profile ← pyGetItem acc0 "profile"
      let hasEleves ← pyContains profile "eleves"
      if hasEleves then do
        let elevesV ← pyGetItem profile "eleves"
        let items ← pyIterate elevesV
        items.foldlM (fun acc ev => do
          let etab ← pyGetItem acc0 "nomEtablissement"
          let e ← EDEleve.ofData ev etab
          pure (acc ++ [e])) []
      else pure []
  pure { token := token, id := id, identifiant := identifiant,
         idLogin := idLogin, accountType := accountType,
         modules := modules, eleves := eleves }

/-! ## Authentication handshake (lines 410-549)

The handshake's observable effects are collected in a `Trace`: the
provider-facing POSTs (with the payload parts the claims speak about),
the events fired on the host bus, and the successive contents written to
the qcm.json cache file.  Each POST's response body is supplied by the
environment, indexed by how many calls of that kind were made before. -/

/-- One provider-facing call made by the module. -/
inductive NetCall where
  /-- `POST login.awp`; `some (cn, cv)` on the second, double-auth step. -/
  | loginPost (fa : Option (String × String))
  /-- `POST connexion/doubleauth.awp?verbe=get`. -/
  | qcmGet
  /-- `POST connexion/doubleauth.awp?verbe=post` with the `choix` payload. -/
  | qcmPost (choix : String)

/-- The `event_data` fired on the host bus (lines 480-485). -/
structure EDEvent where
  device_id : String
  type : String
  question : String

/-- Observable effects accumulated by a handshake run. -/
structure Trace where
  calls : List NetCall
  events : List EDEvent
  cacheWrites : List Dict

/-- Failure of the `open` / `json.load` of qcm.json (lines 434-438):
`FileNotFoundError` or a JSON parse error.  Neither is a `QCMError`. -/
inductive CacheErr where
  | fileNotFound
  | badJson

def CacheErr.toPyExn : CacheErr → PyExn
  | .fileNotFound => .fileError
  | .badJson => .valueError

/-- State of the challenge-resolution `while` loop. -/
structure LoopState where
  /-- `try_login`. -/
  tryLogin : Nat
  /-- `qcm_json`: Python `None` or a JSON object (the file's documented
  format; the loaded value is null or a mapping). -/
  cache : Option Dict
  /-- how many `doubleauth verbe=get` calls happened so far. -/
  qcmGetCount : Nat
  /-- how many `doubleauth verbe=post` calls happened so far. -/
  qcmPostCount : Nat
  trace : Trace

/-- The environment of one handshake run: credentials, the cache-file
load outcome, and the provider's response bodies for each call. -/
structure HandshakeEnv where
  username : String
  password : String
  /-- body of the first `login.awp` POST. -/
  loginResp : HttpResp
  /-- outcome of `open` + `json.load` on qcm.json. -/
  cacheLoad : Except CacheErr (Option Dict)
  /-- body of the i-th `doubleauth verbe=get` POST. -/
  qcmResps : Nat → HttpResp
  /-- body of the i-th `doubleauth verbe=post` POST. -/
  postResps : Nat → HttpResp
  /-- body of the second `login.awp` POST. -/
  secondLoginResp : HttpResp

/-- `get_qcm_connexion(token)` (lines 524-534): one transport call, the
`data` member when present, Python `None` (plus a warning) otherwise. -/
def get_qcm_connexion (token : JValue) (resp : HttpResp) :
    Except GetRespErr (Option JValue) :=
  match get_response token resp with
  | .error e => .error e
  | .ok body => .ok (jGet body "data")

/-- `post_qcm_connexion(token, proposition)` (lines 537-549): one
transport call, the `data` member when present, `None` otherwise. -/
def post_qcm_connexion (token : JValue) (resp : HttpResp) :
    Except GetRespErr (Option JValue) :=
  match get_response token resp with
  | .error e => .error e
  | .ok body => .ok (jGet body "data")

/-- Result of one iteration of the `while try_login > 0` body. -/
inductive StepResult where
  /-- the iteration fell through to the next loop test (`continue`, or the
  end-of-body `try_login -= 1`). -/
  | next (s : LoopState)
  /-- `break` after capturing `cn` and `cv` (lines 463-465). -/
  | found (cn cv : JValue) (s : LoopState)
  /-- an exception escaped the loop body. -/
  | err (e : PyExn) (s : LoopState)

/-- `rep` construction (lines 467-470): decode every proposition;
`b64decode` needs a string, decoding failures raise. -/
def decodePropositions : List JValue → Except PyExn (List String)
  | [] => .ok []
  | p :: rest =>
    match p with
    | .jstr p64 =>
      match b64Utf8Decode p64 with
      | none => .error .valueError
      | some txt => (txt :: ·) <$> decodePropositions rest
    | _ => .error .typeError

/-- The `else` branch for an unknown question (lines 466-485), followed by
the end-of-body `try_login -= 1` (line 487): decode the candidate texts,
store them in the cache, dump the cache to the file, fire the `new_qcm`
event, consume one retry.  When `qcm_json` is `None` the condition at
line 447 is also false, the same branch runs and the item assignment
`qcm_json[question] = rep` raises `TypeError` after the decoding work. -/
def qcmElseBranch (username : String) (s : LoopState) (question : String)
    (qcm : JValue) : StepResult :=
  match pyGetItem qcm "propositions" with
  | .error e => .err e s
  | .ok propsV =>
    match pyIterate propsV with
    | .error e => .err e s
    | .ok props =>
      match decodePropositions props with
      | .error e => .err e s
      | .ok rep =>
        match s.cache with
        | none => .err .typeError s
        | some cacheDict =>
          let newCache := dictInsert cacheDict question (.jarr (rep.map .jstr))
          let ev : EDEvent :=
            ⟨"ED - " ++ username, "new_qcm", question⟩
          .next { s with
            cache := some newCache,
            tryLogin := s.tryLogin - 1,
            trace := { s.trace with
              events := s.trace.events ++ [ev],
              cacheWrites := s.trace.cacheWrites ++ [newCache] } }

/-- The known-question branch (lines 448-465): ambiguous entries (more
than one candidate) consume a retry and continue; a single candidate is
base64-encoded and submitted; a falsy submission result continues
WITHOUT touching `try_login` (no decrement on this path in the source);
otherwise `cn`/`cv` are captured and the loop breaks. -/
def qcmKnownBranch (env : HandshakeEnv) (tok : JValue) (s : LoopState)
    (entry : JValue) : StepResult :=
  match pyLen entry with
  | .error e => .err e s
  | .ok n =>
    if n > 1 then .next { s with tryLogin := s.tryLogin - 1 }
    else
      match pyIndexZero entry with
      | .error e => .err e s
      | .ok first =>
        match first with
        | .jstr ans =>
          let reponse := b64Utf8Encode ans
          let s2 : LoopState := { s with
            qcmPostCount := s.qcmPostCount + 1,
            trace := { s.trace with
              calls := s.trace.calls ++ [.qcmPost reponse] } }
          match post_qcm_connexion tok (env.postResps s.qcmPostCount) with
          | .error e => .err (.transport e) s2
          | .ok cnEtCv =>
            if pyFalsyOpt cnEtCv then .next s2
            else
              match cnEtCv with
              | some d =>
                match pyGetItem d "cn" with
                | .error e => .err e s2
                | .ok cn =>
                  match pyGetItem d "cv" with
                  | .error e => .err e s2
                  | .ok cv => .found cn cv s2
              | none => .err .typeError s2
        | _ => .err .typeError s

/-- One iteration of the `while try_login > 0` body (lines 443-487):
fetch the challenge, decode the question, then dispatch on the cache. -/
def loopStep (env : HandshakeEnv) (login : JValue) (username : String)
    (s : LoopState) : StepResult :=
  match pyGetItem login "token" with
  | .error e => .err e s
  | .ok tok =>
    let s1 : LoopState := { s with
      qcmGetCount := s.qcmGetCount + 1,
      trace := { s.trace with calls := s.trace.calls ++ [.qcmGet] } }
    match get_qcm_connexion tok (env.qcmResps s.qcmGetCount) with
    | .error e => .err (.transport e) s1
    | .ok none => .err .typeError s1
    | .ok (some qcm) =>
      match pyGetItem qcm "question" with
      | .error e => .err e s1
      | .ok (.jstr q64) =>
        match b64Utf8Decode q64 with
        | none => .err .valueError s1
        | some question =>
          match s1.cache with
          | some cacheDict =>
            match jfind cacheDict question with
            | some entry => qcmKnownBranch env tok s1 entry
            | none => qcmElseBranch username s1 question qcm
          | none => qcmElseBranch username s1 question qcm
      | .ok _ => .err .typeError s1

/-- Outcome of running the `while` loop with an iteration budget `fuel`
(the source loop has no such budget; `outOfFuel` means the loop was still
running after `fuel` iterations). -/
inductive LoopOutcome where
  | outOfFuel (s : LoopState)
  /-- the loop condition `try_login > 0` failed. -/
  | exhausted (s : LoopState)
  | found (cn cv : JValue) (s : LoopState)
  | errOut (e : PyExn) (s : LoopState)

def runLoop (env : HandshakeEnv) (login : JValue) (username : String) :
    Nat → LoopState → LoopOutcome
  | 0, s => .outOfFuel s
  | fuel + 1, s =>
    if s.tryLogin = 0 then .exhausted s
    else
      match loopStep env login username s with
      | .next s2 => runLoop env login username fuel s2
      | .found cn cv s2 => .found cn cv s2
      | .err e s2 => .errOut e s2

def LoopOutcome.isOutOfFuel : LoopOutcome → Bool
  | .outOfFuel _ => true
  | _ => false

/-- The `QCMError` message (line 490-492; accents and apostrophe of the
French text elided). -/
def qcmErrorMsg : String :=
  "Verifiez le fichier qcm.json, et rechargez l integration Ecole Directe."

/-- Outcome of the `try` body of `get_ecoledirecte_session`. -/
inductive BodyOutcome where
  | value (sess : EDSession) (t : Trace)
  | exn (e : PyExn) (t : Trace)
  | outOfFuel (t : Trace)

/-- Lines 511-515: the `_LOGGER.info` subscript chain
`login["data"]["accounts"][0]["identifiant"]`, then `EDSession(login)`. -/
def finishLogin (login : JValue) (t : Trace) : BodyOutcome :=
  match (do
      let d ← pyGetItem login "data"
      let accounts ← pyGetItem d "accounts"
      let acc0 ← pyIndexZero accounts
      let _ ← pyGetItem acc0 "identifiant"
      EDSession.ofJson login : Except PyExn EDSession) with
  | .error e => .exn e t
  | .ok sess => .value sess t

/-- The `try` body of `get_ecoledirecte_session` (lines 422-515): first
login; on `code == 250` load the cache, run the retry loop, check
`try_login == 0` (raise `QCMError`), second login with the `fa` pair
(string concatenation needs `cn`/`cv` to be strings); finally the info
log and `EDSession` construction. -/
def handshakeBody (env : HandshakeEnv) (fuel : Nat) : BodyOutcome :=
  let t0 : Trace := ⟨[.loginPost none], [], []⟩
  match get_response .jnull env.loginResp with
  | .error e => .exn (.transport e) t0
  | .ok login =>
    match pyGetItem login "code" with
    | .error e => .exn e t0
    | .ok code =>
      if code.eqNum 250 then
        match env.cacheLoad with
        | .error ce => .exn ce.toPyExn t0
        | .ok cacheVal =>
          let s0 : LoopState := ⟨5, cacheVal, 0, 0, t0⟩
          match runLoop env login env.username fuel s0 with
          | .outOfFuel s => .outOfFuel s.trace
          | .errOut e s => .exn e s.trace
          | .exhausted s => .exn (.qcm qcmErrorMsg) s.trace
          | .found cn cv s =>
            if s.tryLogin = 0 then .exn (.qcm qcmErrorMsg) s.trace
            else
              match cn, cv with
              | .jstr cns, .jstr cvs =>
                let t1 : Trace := { s.trace with
                  calls := s.trace.calls ++ [.loginPost (some (cns, cvs))] }
                match get_response .jnull env.secondLoginResp with
                | .error e => .exn (.transport e) t1
                | .ok login2 => finishLogin login2 t1
              | _, _ => .exn .typeError s.trace
      else finishLogin login t0

/-- Observable outcome of `get_ecoledirecte_session`. -/
inductive SessOutcome where
  /-- normal return: `some` session or `None`. -/
  | ok (sess : Option EDSession) (t : Trace)
  /-- `QCMError` propagated to the caller. -/
  | qcmRaised (msg : String) (t : Trace)
  /-- iteration budget exhausted: the run was still going. -/
  | outOfFuel (t : Trace)

/-- `get_ecoledirecte_session` (lines 420-521): the body wrapped in
`except QCMError: raise` / `except Exception: return None`. -/
def get_ecoledirecte_session (env : HandshakeEnv) (fuel : Nat) : SessOutcome :=
  match handshakeBody env fuel with
  | .value sess t => .ok (some sess) t
  | .exn (.qcm m) t => .qcmRaised m t
  | .exn _ t => .ok none t
  | .outOfFuel t => .outOfFuel t

def SessOutcome.isOutOfFuel : SessOutcome → Bool
  | .outOfFuel _ => true
  | _ => false

/-- `check_ecoledirecte_session` (lines 410-417): `True` when the
handshake raises `QCMError`, else `session is not None`. -/
def check_ecoledirecte_session (env : HandshakeEnv) (fuel : Nat) :
    Option Bool :=
  match get_ecoledirecte_session env fuel with
  | .qcmRaised _ _ => some true
  | .ok sess _ => some sess.isSome
  | .outOfFuel _ => none

/-! ## Data-fetch operations (lines 567-643)

Each issues one transport call (URL construction elided: the response
body is the oracle argument) and then extracts `data`; the Bool result is
the warning flag (`_LOGGER.warning` fired iff `data` was absent). -/

/-- `get_homeworks_by_date(token, eleve, date)` (lines 567-577). -/
def get_homeworks_by_date (token : JValue) (_eleve : EDEleve) (_date : String)
    (resp : HttpResp) : Except GetRespErr (Option JValue × Bool) :=
  match get_response token resp with
  | .error e => .error e
  | .ok body =>
    match jGet body "data" with
    | some d => .ok (some d, false)
    | none => .ok (none, true)

/-- `get_homeworks(token, eleve)` (lines 587-597). -/
def get_homeworks (token : JValue) (_eleve : EDEleve)
    (resp : HttpResp) : Except GetRespErr (Option JValue × Bool) :=
  match get_response token resp with
  | .error e => .error e
  | .ok body =>
    match jGet body "data" with
    | some d => .ok (some d, false)
    | none => .ok (none, true)

/-- `get_grades(token, eleve, annee_scolaire)` (lines 608-618). -/
def get_grades (token : JValue) (_eleve : EDEleve) (_anneeScolaire : String)
    (resp : HttpResp) : Except GetRespErr (Option JValue × Bool) :=
  match get_response token resp with
  | .error e => .error e
  | .ok body =>
    match jGet body "data" with
    | some d => .ok (some d, false)
    | none => .ok (none, true)

/-- `get_lessons(token, eleve, date_debut, date_fin)` (lines 626-636). -/
def get_lessons (token : JValue) (_eleve : EDEleve)
    (_dateDebut _dateFin : String) (resp : HttpResp) :
    Except GetRespErr (Option JValue × Bool) :=
  match get_response token resp with
  | .error e => .error e
  | .ok body =>
    match jGet body "data" with
    | some d => .ok (some d, false)
    | none => .ok (none, true)

/-! ## Helper lemmas -/

theorem eqNum_true_iff (v : JValue) (n : Int) :
    v.eqNum n = true ↔ v = .jnum n := by
  cases v <;> simp [JValue.eqNum]

theorem fieldOr_eq_getD (d : Dict) (k : String) (dflt : JValue) :
    fieldOr d k dflt = (jfind d k).getD dflt := by
  unfold fieldOr
  cases jfind d k <;> rfl

theorem jfind_dictInsert_self (d : Dict) (k : String) (v : JValue) :
    jfind (dictInsert d k v) k = some v := by
  induction d with
  | nil => simp [dictInsert, jfind]
  | cons kv rest ih =>
    obtain ⟨k2, v2⟩ := kv
    by_cases h : k2 = k
    · simp [dictInsert, h, jfind]
    · simp [dictInsert, h, jfind, ih]

/-! ## Claim C4 — transport error classification -/

/-- C4 counterexample: the claim says every non-success code yields a
`TransportError` carrying the provider message; but on the body
`{"code": 500}` (no `message` member) the f-string at line 41 evaluates
`resp_json["message"]` and raises `KeyError`, so no `RequestError` is
built. -/
theorem C4_counterexample :
    get_response .jnull (.json (.jobj [("code", .jnum 500)])) =
        .error .keyErrorMessage ∧
    GetRespErr.keyErrorMessage.isRequestError = false :=
  ⟨rfl, rfl⟩

/-- C4 amended: on an object body, a missing `code` raises
`RequestError`; `code == 250` with no token returns the body unchanged
(whatever `message` holds); `code == 200` returns the body unchanged; any
other case raises `RequestError` carrying the provider `code` and
`message` when `message` is present, and `KeyError` — not a
`RequestError` — when `message` is absent. -/
theorem C4_amended (token : JValue) (fields : Dict) :
    (jfind fields "code" = none →
      get_response token (.json (.jobj fields)) =
        .error .requestErrorNoCode) ∧
    (∀ c, jfind fields "code" = some c → c.eqNum 250 = true →
      token = .jnull →
      get_response token (.json (.jobj fields)) = .ok (.jobj fields)) ∧
    (∀ c, jfind fields "code" = some c → c.eqNum 200 = true →
      get_response token (.json (.jobj fields)) = .ok (.jobj fields)) ∧
    (∀ c m, jfind fields "code" = some c →
      (c.eqNum 250 && token.isNull) = false → c.eqNum 200 = false →
      jfind fields "message" = some m →
      get_response token (.json (.jobj fields)) =
        .error (.requestErrorBadCode c m)) ∧
    (∀ c, jfind fields "code" = some c →
      (c.eqNum 250 && token.isNull) = false → c.eqNum 200 = false →
      jfind fields "message" = none →
      get_response token (.json (.jobj fields)) =
        .error .keyErrorMessage) := by
  refine ⟨?_, ?_, ?_, ?_, ?_⟩
  · intro h
    simp [get_response, h]
  · intro c hc h250 htok
    subst htok
    simp [get_response, hc, h250, JValue.isNull]
  · intro c hc h200
    have hcv : c = .jnum 200 := (eqNum_true_iff c 200).mp h200
    subst hcv
    simp [get_response, hc, JValue.eqNum]
  · intro c m hc hnot250 hnot200 hm
    simp [get_response, hc, hnot250, hnot200, hm]
  · intro c hc hnot250 hnot200 hm
    simp [get_response, hc, hnot250, hnot200, hm]

/-- C4 witness: the amended statement at concrete inputs — a 250 body
with a null `message` and no token is returned unchanged; 250 with a
token and any other code raise `RequestError` with the message. -/
theorem C4_witness :
    get_response .jnull
        (.json (.jobj [("code", .jnum 250), ("message", .jnull)])) =
      .ok (.jobj [("code", .jnum 250), ("message", .jnull)]) ∧
    get_response (.jstr "T")
        (.json (.jobj [("code", .jnum 250), ("message", .jstr "msg")])) =
      .error (.requestErrorBadCode (.jnum 250) (.jstr "msg")) ∧
    get_response (.jstr "T")
        (.json (.jobj [("code", .jnum 520), ("message", .jstr "oops")])) =
      .error (.requestErrorBadCode (.jnum 520) (.jstr "oops")) :=
  ⟨(C4_amended _ _).2.1 _ rfl rfl rfl,
   (C4_amended _ _).2.2.2.1 _ _ rfl rfl rfl rfl,
   (C4_amended _ _).2.2.2.1 _ _ rfl rfl rfl rfl⟩

/-! ## Claim C9 — normalized student name -/

/-- The apostrophe character, built by code point. -/
def apostropheChar : Char := Char.ofNat 39

/-- The student first="Jean-Paul", last="O Brien" (with an apostrophe). -/
def eleveJeanPaul : EDEleve where
  classe_id := none
  classe_name := none
  eleve_id := .jnum 1
  eleve_lastname := .jstr (String.mk ['O', apostropheChar, 'B', 'r', 'i', 'e', 'n'])
  eleve_firstname := .jstr "Jean-Paul"
  establishment := .jstr ""
  modules := []

/-- C9: `get_fullname_lower` on first="Jean-Paul", last="O Brien" (with
apostrophe) yields `jean_paul_o_brien`; in general, each name is
lower-cased, every character outside `A-Za-z` becomes one underscore,
and the two names are joined by an underscore. -/
theorem C9_fullname :
    EDEleve.get_fullname_lower eleveJeanPaul = .ok "jean_paul_o_brien" ∧
    ∀ (f l : String) (cid cn : Option JValue) (eid est : JValue)
      (mods : List JValue),
      EDEleve.get_fullname_lower
          ⟨cid, cn, eid, .jstr l, .jstr f, est, mods⟩ =
        .ok (String.mk ((f.toList.map Char.toLower).map
              fun c => if c.isAlpha then c else '_') ++ "_" ++
             String.mk ((l.toList.map Char.toLower).map
              fun c => if c.isAlpha then c else '_')) := by
  constructor
  · rfl
  · intro f l cid cn eid est mods
    rfl

/-! ## Claim C5 — domain-mapper totality -/

/-- C5 counterexample: the claim says constructing a Student from any
JSON object (including `{}`) never fails; but `EDEleve.__init__` with a
data record reads `data["id"]` unguarded (line 123), so the empty object
raises `KeyError`. -/
theorem C5_counterexample :
    EDEleve.ofData (.jobj []) (.jstr "College") = .error (.keyError "id") :=
  rfl

/-- C5 amended: the Homework, Grade and Lesson constructors are total
(plain functions) and every guarded field holds the source value when the
key is present and its default (`""`, or `False` for the boolean flags)
when absent — except `EDLesson.end_date`: when the `end_date` key is
absent, line 323 assigns a misspelled `tend_date` attribute `""` and the
`end_date` attribute is never set.  The Student JSON-record constructor
is not total: on `{}` it raises `KeyError` for `id`. -/
theorem C5_amended :
    (∀ (d : Dict) (p : JValue),
      (EDHomework.ofData d p).matiere = (jfind d "matiere").getD (.jstr "") ∧
      (EDHomework.ofData d p).code_matiere = (jfind d "codeMatiere").getD (.jstr "") ∧
      (EDHomework.ofData d p).a_faire = (jfind d "aFaire").getD (.jstr "") ∧
      (EDHomework.ofData d p).id_devoir = (jfind d "idDevoir").getD (.jstr "") ∧
      (EDHomework.ofData d p).documents_a_faire = (jfind d "documentsAFaire").getD (.jstr "") ∧
      (EDHomework.ofData d p).donne_le = (jfind d "donneLe").getD (.jstr "") ∧
      (EDHomework.ofData d p).pour_le = p ∧
      (EDHomework.ofData d p).effectue = (jfind d "effectue").getD (.jstr "") ∧
      (EDHomework.ofData d p).interrogation = (jfind d "interrogation").getD (.jstr "") ∧
      (EDHomework.ofData d p).rendre_en_ligne = (jfind d "rendreEnLigne").getD (.jstr "") ∧
      (EDHomework.ofData d p).nb_jour_max_rendu_devoir = (jfind d "nbJourMaxRenduDevoir").getD (.jstr "") ∧
      (EDHomework.ofData d p).contenu = (jfind d "contenu").getD (.jstr "")) ∧
    (∀ d : Dict,
      (EDGrade.ofData d).id = (jfind d "id").getD (.jstr "") ∧
      (EDGrade.ofData d).devoir = (jfind d "devoir").getD (.jstr "") ∧
      (EDGrade.ofData d).code_periode = (jfind d "codePeriode").getD (.jstr "") ∧
      (EDGrade.ofData d).code_matiere = (jfind d "codeMatiere").getD (.jstr "") ∧
      (EDGrade.ofData d).libelle_matiere = (jfind d "libelleMatiere").getD (.jstr "") ∧
      (EDGrade.ofData d).code_sous_matiere = (jfind d "codeSousMatiere").getD (.jstr "") ∧
      (EDGrade.ofData d).type_devoir = (jfind d "typeDevoir").getD (.jstr "") ∧
      (EDGrade.ofData d).en_lettre = (jfind d "enLettre").getD (.jstr "") ∧
      (EDGrade.ofData d).commentaire = (jfind d "commentaire").getD (.jstr "") ∧
      (EDGrade.ofData d).unc_sujet = (jfind d "uncSujet").getD (.jstr "") ∧
      (EDGrade.ofData d).unc_corrige = (jfind d "uncCorrige").getD (.jstr "") ∧
      (EDGrade.ofData d).coef = (jfind d "coef").getD (.jstr "") ∧
      (EDGrade.ofData d).note_sur = (jfind d "noteSur").getD (.jstr "") ∧
      (EDGrade.ofData d).valeur = (jfind d "valeur").getD (.jstr "") ∧
      (EDGrade.ofData d).non_significatif = (jfind d "nonSignificatif").getD (.jstr "") ∧
      (EDGrade.ofData d).date = (jfind d "date").getD (.jstr "") ∧
      (EDGrade.ofData d).date_saisie = (jfind d "dateSaisie").getD (.jstr "") ∧
      (EDGrade.ofData d).valeurisee = (jfind d "valeurisee").getD (.jstr "") ∧
      (EDGrade.ofData d).moyenne_classe = (jfind d "moyenneClasse").getD (.jstr "") ∧
      (EDGrade.ofData d).min_classe = (jfind d "minClasse").getD (.jstr "") ∧
      (EDGrade.ofData d).max_classe = (jfind d "maxClasse").getD (.jstr "") ∧
      (EDGrade.ofData d).elements_programme = (jfind d "elementsProgramme").getD (.jstr "")) ∧
    (∀ d : Dict,
      (EDLesson.ofData d).id = (jfind d "id").getD (.jstr "") ∧
      (EDLesson.ofData d).text = (jfind d "text").getD (.jstr "") ∧
      (EDLesson.ofData d).matiere = (jfind d "matiere").getD (.jstr "") ∧
      (EDLesson.ofData d).codeMatiere = (jfind d "codeMatiere").getD (.jstr "") ∧
      (EDLesson.ofData d).typeCours = (jfind d "typeCours").getD (.jstr "") ∧
      (EDLesson.ofData d).start_date = (jfind d "start_date").getD (.jstr "") ∧
      (EDLesson.ofData d).end_date = jfind d "end_date" ∧
      (EDLesson.ofData d).tend_date =
        (if (jfind d "end_date").isSome then none else some (.jstr "")) ∧
      (EDLesson.ofData d).color = (jfind d "color").getD (.jstr "") ∧
      (EDLesson.ofData d).dispensable = (jfind d "dispensable").getD (.jbool false) ∧
      (EDLesson.ofData d).dispense = (jfind d "dispense").getD (.jstr "") ∧
      (EDLesson.ofData d).prof = (jfind d "prof").getD (.jstr "") ∧
      (EDLesson.ofData d).salle = (jfind d "salle").getD (.jstr "") ∧
      (EDLesson.ofData d).classe = (jfind d "classe").getD (.jstr "") ∧
      (EDLesson.ofData d).classeId = (jfind d "classeId").getD (.jstr "") ∧
      (EDLesson.ofData d).classeCode = (jfind d "classeCode").getD (.jstr "") ∧
      (EDLesson.ofData d).groupe = (jfind d "groupe").getD (.jstr "") ∧
      (EDLesson.ofData d).groupeCode = (jfind d "groupeCode").getD (.jstr "") ∧
      (EDLesson.ofData d).groupeId = (jfind d "groupeId").getD (.jstr "") ∧
      (EDLesson.ofData d).icone = (jfind d "icone").getD (.jstr "") ∧
      (EDLesson.ofData d).isFlexible = (jfind d "isFlexible").getD (.jbool false) ∧
      (EDLesson.ofData d).isModifie = (jfind d "isModifie").getD (.jbool false) ∧
      (EDLesson.ofData d).contenuDeSeance = (jfind d "contenuDeSeance").getD (.jbool false) ∧
      (EDLesson.ofData d).devoirAFaire = (jfind d "devoirAFaire").getD (.jbool false) ∧
      (EDLesson.ofData d).isAnnule = (jfind d "isAnnule").getD (.jbool false)) ∧
    EDEleve.ofData (.jobj []) (.jstr "") = .error (.keyError "id") := by
  refine ⟨fun d p => ?_, fun d => ?_, fun d => ?_, rfl⟩
  · simp [EDHomework.ofData, fieldOr_eq_getD]
  · simp [EDGrade.ofData, fieldOr_eq_getD]
  · cases h : jfind d "end_date" <;>
      simp [EDLesson.ofData, fieldOr_eq_getD, h]

/-! ## Claim C8 — data-fetch operations -/

/-- C8: for each of the four fetch operations, when the transport call
succeeds the operation returns exactly the `data` member when present
(no warning), and `None` with a warning when absent; it never raises in
that case. -/
theorem C8_data_field (token : JValue) (eleve : EDEleve)
    (date annee d1 d2 : String) (resp : HttpResp) (body : JValue)
    (h : get_response token resp = .ok body) :
    get_homeworks_by_date token eleve date resp =
      .ok (jGet body "data", (jGet body "data").isNone) ∧
    get_homeworks token eleve resp =
      .ok (jGet body "data", (jGet body "data").isNone) ∧
    get_grades token eleve annee resp =
      .ok (jGet body "data", (jGet body "data").isNone) ∧
    get_lessons token eleve d1 d2 resp =
      .ok (jGet body "data", (jGet body "data").isNone) := by
  cases hd : jGet body "data" <;>
    simp [get_homeworks_by_date, get_homeworks, get_grades, get_lessons,
          h, hd]

/-- C8 witness: a body with a `data` member returns exactly it; a body
without one returns `None` plus the warning flag. -/
theorem C8_witness :
    get_homeworks_by_date (.jstr "T") eleveJeanPaul "2026-01-05"
        (.json (.jobj [("code", .jnum 200), ("data", .jarr [])])) =
      .ok (some (.jarr []), false) ∧
    get_lessons (.jstr "T") eleveJeanPaul "2026-01-05" "2026-01-12"
        (.json (.jobj [("code", .jnum 200)])) =
      .ok (none, true) :=
  ⟨(C8_data_field (.jstr "T") eleveJeanPaul "2026-01-05" "y" "a" "b"
      (.json (.jobj [("code", .jnum 200), ("data", .jarr [])])) _ rfl).1,
   (C8_data_field (.jstr "T") eleveJeanPaul "x" "y" "2026-01-05" "2026-01-12"
      (.json (.jobj [("code", .jnum 200)])) _ rfl).2.2.2⟩

/-! ## Shared concrete environments -/

/-- An environment whose first login response is not JSON: the handshake
body raises `RequestError` immediately. -/
def envNotJson : HandshakeEnv where
  username := "alice"
  password := "pw"
  loginResp := .notJson
  cacheLoad := .ok (some [])
  qcmResps := fun _ => .notJson
  postResps := fun _ => .notJson
  secondLoginResp := .notJson

/-- First-login response announcing a challenge (code 250) with a token. -/
def loginResp250 : HttpResp :=
  .json (.jobj [("code", .jnum 250), ("token", .jstr "T")])

/-- A challenge response whose base64 question decodes to "Q". -/
def qcmRespQ : HttpResp :=
  .json (.jobj [("code", .jnum 200),
                ("data", .jobj [("question", .jstr "UQ==")])])

/-- An environment where question "Q" has an ambiguous two-candidate
cache entry: every iteration consumes one retry without contacting the
provider further, the budget runs out and `QCMError` is raised. -/
def envQcmExhaust : HandshakeEnv where
  username := "alice"
  password := "pw"
  loginResp := loginResp250
  cacheLoad := .ok (some [("Q", .jarr [.jstr "a", .jstr "b"])])
  qcmResps := fun _ => qcmRespQ
  postResps := fun _ => .notJson
  secondLoginResp := .notJson

/-- Trace of `envQcmExhaust`: the first login and five challenge fetches,
no event, no cache write. -/
def traceQcmExhaust : Trace :=
  ⟨[.loginPost none, .qcmGet, .qcmGet, .qcmGet, .qcmGet, .qcmGet], [], []⟩

/-! ## Claim C10 — `check_ecoledirecte_session` -/

/-- C10: the credential check returns `True` whenever the handshake
raises `QCMError`, and otherwise returns `True` exactly when the
handshake produced a session. -/
theorem C10_check (env : HandshakeEnv) (fuel : Nat) :
    (∀ m t, get_ecoledirecte_session env fuel = .qcmRaised m t →
      check_ecoledirecte_session env fuel = some true) ∧
    (∀ s t, get_ecoledirecte_session env fuel = .ok s t →
      check_ecoledirecte_session env fuel = some s.isSome) := by
  constructor
  · intro m t h
    simp [check_ecoledirecte_session, h]
  · intro s t h
    simp [check_ecoledirecte_session, h]

/-- C10 witness: exhausted challenge budget (a `QCMError` run) reports
`True`; a failed handshake (no session) reports `False`. -/
theorem C10_witness :
    check_ecoledirecte_session envQcmExhaust 6 = some true ∧
    check_ecoledirecte_session envNotJson 1 = some false :=
  ⟨(C10_check envQcmExhaust 6).1 qcmErrorMsg traceQcmExhaust rfl,
   (C10_check envNotJson 1).2 none ⟨[.loginPost none], [], []⟩ rfl⟩

/-! ## Claim C2 — top-level exception handling -/

/-- C2: whatever the handshake body does, `get_ecoledirecte_session`
propagates `QCMError` unchanged, converts every other exception to a
`None` session, and wraps a successful body value in `some`. -/
theorem C2_handler (env : HandshakeEnv) (fuel : Nat) :
    (∀ m t, handshakeBody env fuel = .exn (.qcm m) t →
      get_ecoledirecte_session env fuel = .qcmRaised m t) ∧
    (∀ e t, handshakeBody env fuel = .exn e t → e.isQcm = false →
      get_ecoledirecte_session env fuel = .ok none t) ∧
    (∀ s t, handshakeBody env fuel = .value s t →
      get_ecoledirecte_session env fuel = .ok (some s) t) := by
  refine ⟨?_, ?_, ?_⟩
  · intro m t h
    simp [get_ecoledirecte_session, h]
  · intro e t h hq
    cases e <;> simp_all [get_ecoledirecte_session, PyExn.isQcm]
  · intro s t h
    simp [get_ecoledirecte_session, h]

/-- C2 witness: a non-JSON login response (a `RequestError`, not a
`QCMError`) is swallowed into a `None` session; an exhausted challenge
budget propagates as `QCMError` with its trace. -/
theorem C2_witness :
    get_ecoledirecte_session envNotJson 1 =
      .ok none ⟨[.loginPost none], [], []⟩ ∧
    get_ecoledirecte_session envQcmExhaust 6 =
      .qcmRaised qcmErrorMsg traceQcmExhaust :=
  ⟨(C2_handler envNotJson 1).2.1 (.transport .requestErrorNotJson)
      ⟨[.loginPost none], [], []⟩ rfl rfl,
   (C2_handler envQcmExhaust 6).1 qcmErrorMsg traceQcmExhaust rfl⟩

/-! ## Claim C3 — unreadable challenge cache -/

/-- An environment reaching the challenge step with an unreadable cache
file. -/
def envCacheFail : HandshakeEnv where
  username := "alice"
  password := "pw"
  loginResp := loginResp250
  cacheLoad := .error .fileNotFound
  qcmResps := fun _ => .notJson
  postResps := fun _ => .notJson
  secondLoginResp := .notJson

/-- C3 counterexample: the claim says an absent/unreadable cache file
error propagates out of `get_ecoledirecte_session`; but the `open` at
line 434 sits inside the `try` whose `except Exception` returns `None`,
so the run yields a normal `None` session (and no exception outcome). -/
theorem C3_counterexample :
    get_ecoledirecte_session envCacheFail 5 =
      .ok none ⟨[.loginPost none], [], []⟩ :=
  rfl

/-- C3 amended: when the first login reports code 250 and the cache file
load fails (absent or unreadable, never a `QCMError`), the failure is
caught by the handshake's general catch-all: `get_ecoledirecte_session`
returns no session, no cache write happens (the file is not
auto-created), no event is fired and no further network call is made. -/
theorem C3_amended (env : HandshakeEnv) (fuel : Nat) (login code : JValue)
    (ce : CacheErr)
    (h1 : get_response .jnull env.loginResp = .ok login)
    (h2 : pyGetItem login "code" = .ok code)
    (h3 : code.eqNum 250 = true)
    (h4 : env.cacheLoad = .error ce) :
    get_ecoledirecte_session env fuel =
      .ok none ⟨[.loginPost none], [], []⟩ := by
  cases ce <;>
    simp [get_ecoledirecte_session, handshakeBody, h1, h2, h3, h4,
          CacheErr.toPyExn]

/-- C3 witness: the amended statement at a concrete environment whose
cache file holds unparsable JSON. -/
theorem C3_witness :
    get_ecoledirecte_session
        { envCacheFail with cacheLoad := .error .badJson } 2 =
      .ok none ⟨[.loginPost none], [], []⟩ :=
  C3_amended { envCacheFail with cacheLoad := .error .badJson } 2
    (.jobj [("code", .jnum 250), ("token", .jstr "T")]) (.jnum 250)
    .badJson rfl rfl rfl rfl

/-! ## Claim C6 — cached single-candidate answer accepted -/

/-- State after an accepted-answer iteration: both call counters advance,
the challenge fetch and the answer submission are recorded; cache, cache
writes, events and `try_login` are untouched. -/
def stepStateAccepted (s : LoopState) (ans : String) : LoopState :=
  { s with
    qcmGetCount := s.qcmGetCount + 1,
    qcmPostCount := s.qcmPostCount + 1,
    trace := { s.trace with
      calls := s.trace.calls ++ [.qcmGet] ++
        [.qcmPost (b64Utf8Encode ans)] } }

/-- C6: when the decoded question has a cache entry with exactly one
candidate and the provider accepts the submission (truthy `data` holding
`cn`/`cv`), the iteration submits the base64-encoded candidate, the loop
exits with that `(cn, cv)` pair, the cache and the cache-file writes are
untouched, no event is fired and the retry budget is not consumed. -/
theorem C6_accepted (env : HandshakeEnv) (login : JValue)
    (username : String) (s : LoopState) (cacheDict : Dict)
    (tok qcm dataV cn cv : JValue) (q64 question ans : String)
    (fuel : Nat)
    (htok : pyGetItem login "token" = .ok tok)
    (hget : get_qcm_connexion tok (env.qcmResps s.qcmGetCount) =
      .ok (some qcm))
    (hq : pyGetItem qcm "question" = .ok (.jstr q64))
    (hdec : b64Utf8Decode q64 = some question)
    (hcache : s.cache = some cacheDict)
    (hentry : jfind cacheDict question = some (.jarr [.jstr ans]))
    (hpost : post_qcm_connexion tok (env.postResps s.qcmPostCount) =
      .ok (some dataV))
    (htruthy : pyTruthy dataV = true)
    (hcn : pyGetItem dataV "cn" = .ok cn)
    (hcv : pyGetItem dataV "cv" = .ok cv)
    (htl : s.tryLogin ≠ 0) :
    loopStep env login username s =
      .found cn cv (stepStateAccepted s ans) ∧
    runLoop env login username (fuel + 1) s =
      .found cn cv (stepStateAccepted s ans) ∧
    (stepStateAccepted s ans).cache = s.cache ∧
    (stepStateAccepted s ans).trace.cacheWrites = s.trace.cacheWrites ∧
    (stepStateAccepted s ans).trace.events = s.trace.events ∧
    (stepStateAccepted s ans).tryLogin = s.tryLogin ∧
    (stepStateAccepted s ans).trace.calls =
      s.trace.calls ++ [.qcmGet, .qcmPost (b64Utf8Encode ans)] := by
  have hstep : loopStep env login username s =
      .found cn cv (stepStateAccepted s ans) := by
    simp [loopStep, qcmKnownBranch, stepStateAccepted, htok, hget, hq,
          hdec, hcache, hentry, hpost, htruthy, hcn, hcv,
          pyLen, pyIndexZero, pyFalsyOpt]
  have hrun : runLoop env login username (fuel + 1) s =
      .found cn cv (stepStateAccepted s ans) := by
    simp only [runLoop]
    rw [if_neg htl, hstep]
  refine ⟨hstep, hrun, rfl, rfl, rfl, rfl, ?_⟩
  simp [stepStateAccepted]

/-- An environment where question "Q" is cached with the single
candidate "42" and the provider accepts the submitted answer. -/
def envC6 : HandshakeEnv where
  username := "alice"
  password := "pw"
  loginResp := loginResp250
  cacheLoad := .ok (some [("Q", .jarr [.jstr "42"])])
  qcmResps := fun _ => qcmRespQ
  postResps := fun _ => .json (.jobj [("code", .jnum 200),
    ("data", .jobj [("cn", .jstr "CN1"), ("cv", .jstr "CV1")])])
  secondLoginResp := .notJson

/-- The 250-login body with the handshake token. -/
def loginBody250 : JValue :=
  .jobj [("code", .jnum 250), ("token", .jstr "T")]

/-- C6 witness: the concrete accepted run — "42" is submitted base64
encoded ("NDI="), the loop exits with the provider's pair, the budget
stays at 5, no write, no event. -/
theorem C6_witness :
    loopStep envC6 loginBody250 "alice"
        ⟨5, some [("Q", .jarr [.jstr "42"])], 0, 0,
         ⟨[.loginPost none], [], []⟩⟩ =
      .found (.jstr "CN1") (.jstr "CV1")
        ⟨5, some [("Q", .jarr [.jstr "42"])], 1, 1,
         ⟨[.loginPost none, .qcmGet, .qcmPost "NDI="], [], []⟩⟩ :=
  (C6_accepted envC6 loginBody250 "alice"
    ⟨5, some [("Q", .jarr [.jstr "42"])], 0, 0, ⟨[.loginPost none], [], []⟩⟩
    [("Q", .jarr [.jstr "42"])] (.jstr "T")
    (.jobj [("question", .jstr "UQ==")])
    (.jobj [("cn", .jstr "CN1"), ("cv", .jstr "CV1")])
    (.jstr "CN1") (.jstr "CV1") "UQ==" "Q" "42" 0
    rfl rfl rfl rfl rfl rfl rfl rfl rfl rfl (by decide)).1

/-! ## Claim C7 — unknown question iteration -/

/-- State after an unknown-question iteration: the cache gains the
question with the decoded candidate list, the new cache is written to
the file, one `new_qcm` event is fired, one retry is consumed. -/
def stepStateUnknown (s : LoopState) (username question : String)
    (rep : List String) (cacheDict : Dict) : LoopState :=
  { s with
    tryLogin := s.tryLogin - 1,
    cache := some (dictInsert cacheDict question (.jarr (rep.map .jstr))),
    qcmGetCount := s.qcmGetCount + 1,
    trace := { s.trace with
      calls := s.trace.calls ++ [.qcmGet],
      events := s.trace.events ++
        [⟨"ED - " ++ username, "new_qcm", question⟩],
      cacheWrites := s.trace.cacheWrites ++
        [dictInsert cacheDict question (.jarr (rep.map .jstr))] } }

/-- C7: when the decoded question is not in the (non-`None`) cache,
after the iteration the in-memory cache maps the question to the decoded
candidate list (and the same mapping is the one appended to the file
writes), exactly one `new_qcm` event with the username-derived device id
has been fired, and the retry counter has decreased by exactly one. -/
theorem C7_unknown (env : HandshakeEnv) (login : JValue)
    (username : String) (s : LoopState) (cacheDict : Dict)
    (tok qcm propsV : JValue) (q64 question : String)
    (props : List JValue) (rep : List String) (fuel : Nat)
    (htok : pyGetItem login "token" = .ok tok)
    (hget : get_qcm_connexion tok (env.qcmResps s.qcmGetCount) =
      .ok (some qcm))
    (hq : pyGetItem qcm "question" = .ok (.jstr q64))
    (hdec : b64Utf8Decode q64 = some question)
    (hcache : s.cache = some cacheDict)
    (hmiss : jfind cacheDict question = none)
    (hprops : pyGetItem qcm "propositions" = .ok propsV)
    (hiter : pyIterate propsV = .ok props)
    (hrep : decodePropositions props = .ok rep)
    (htl : s.tryLogin ≠ 0) :
    loopStep env login username s =
      .next (stepStateUnknown s username question rep cacheDict) ∧
    runLoop env login username (fuel + 1) s =
      runLoop env login username fuel
        (stepStateUnknown s username question rep cacheDict) ∧
    jfind (dictInsert cacheDict question (.jarr (rep.map .jstr)))
        question = some (.jarr (rep.map .jstr)) ∧
    (stepStateUnknown s username question rep cacheDict).cache =
      some (dictInsert cacheDict question (.jarr (rep.map .jstr))) ∧
    (stepStateUnknown s username question rep cacheDict).trace.cacheWrites =
      s.trace.cacheWrites ++
        [dictInsert cacheDict question (.jarr (rep.map .jstr))] ∧
    (stepStateUnknown s username question rep cacheDict).trace.events =
      s.trace.events ++ [⟨"ED - " ++ username, "new_qcm", question⟩] ∧
    (stepStateUnknown s username question rep cacheDict).tryLogin + 1 =
      s.tryLogin := by
  have hstep : loopStep env login username s =
      .next (stepStateUnknown s username question rep cacheDict) := by
    simp [loopStep, qcmElseBranch, stepStateUnknown, htok, hget, hq,
          hdec, hcache, hmiss, hprops, hiter, hrep]
  have hrun : runLoop env login username (fuel + 1) s =
      runLoop env login username fuel
        (stepStateUnknown s username question rep cacheDict) := by
    simp only [runLoop]
    rw [if_neg htl, hstep]
  refine ⟨hstep, hrun, jfind_dictInsert_self cacheDict question _,
          rfl, rfl, rfl, ?_⟩
  have := Nat.succ_pred_eq_of_pos (Nat.pos_of_ne_zero htl)
  simpa [stepStateUnknown] using this

/-- An environment whose cache is empty: question "Q" is unknown; the
provider offers the candidates "42" ("NDI=") and "Q" ("UQ=="). -/
def envC7 : HandshakeEnv where
  username := "bob"
  password := "pw"
  loginResp := loginResp250
  cacheLoad := .ok (some [])
  qcmResps := fun _ => .json (.jobj [("code", .jnum 200),
    ("data", .jobj [("question", .jstr "UQ=="),
                    ("propositions", .jarr [.jstr "NDI=", .jstr "UQ=="])])])
  postResps := fun _ => .notJson
  secondLoginResp := .notJson

/-- C7 witness: the concrete unknown-question iteration — the cache
gains "Q" with the decoded candidates, the write and the single event
are recorded, the counter goes from 5 to 4. -/
theorem C7_witness :
    loopStep envC7 loginBody250 "bob"
        ⟨5, some [], 0, 0, ⟨[.loginPost none], [], []⟩⟩ =
      .next ⟨4, some [("Q", .jarr [.jstr "42", .jstr "Q"])], 1, 0,
        ⟨[.loginPost none, .qcmGet],
         [⟨"ED - bob", "new_qcm", "Q"⟩],
         [[("Q", .jarr [.jstr "42", .jstr "Q"])]]⟩⟩ :=
  (C7_unknown envC7 loginBody250 "bob"
    ⟨5, some [], 0, 0, ⟨[.loginPost none], [], []⟩⟩ [] (.jstr "T")
    (.jobj [("question", .jstr "UQ=="),
            ("propositions", .jarr [.jstr "NDI=", .jstr "UQ=="])])
    (.jarr [.jstr "NDI=", .jstr "UQ=="]) "UQ==" "Q"
    [.jstr "NDI=", .jstr "UQ=="] ["42", "Q"] 0
    rfl rfl rfl rfl rfl rfl rfl rfl rfl (by decide)).1

/-! ## Claim C1 — retry-loop bound

The claim says the challenge loop runs at most 5 iterations for every
sequence of provider responses, including repeated rejection of a cached
single-candidate answer.  In the source, the rejected-answer path
(lines 456-462) ends in `continue` without the end-of-body
`try_login -= 1` (line 487 is skipped), so `try_login` never decreases on
that path and the loop never terminates. -/

/-- A cache whose question "Q" is known-answered with the single
candidate "42". -/
def cacheC1 : Dict := [("Q", .jarr [.jstr "42"])]

/-- A submission response with code 200 and no `data` member: the
submission returns `None`, i.e. the provider rejects the answer. -/
def postRespReject : HttpResp := .json (.jobj [("code", .jnum 200)])

/-- The failing environment: the provider always serves question "Q" and
always rejects the cached answer. -/
def envC1 : HandshakeEnv where
  username := "alice"
  password := "pw"
  loginResp := loginResp250
  cacheLoad := .ok (some cacheC1)
  qcmResps := fun _ => qcmRespQ
  postResps := fun _ => postRespReject
  secondLoginResp := .notJson

/-- One iteration under `envC1`: the cached "42" is submitted ("NDI="),
rejected, and the state keeps `try_login = 5` — only the call counters
and the call trace grow. -/
theorem loopStepC1_rejected (g p : Nat) (cs : List NetCall)
    (es : List EDEvent) (ws : List Dict) :
    loopStep envC1 loginBody250 "alice"
        ⟨5, some cacheC1, g, p, ⟨cs, es, ws⟩⟩ =
      .next ⟨5, some cacheC1, g + 1, p + 1,
             ⟨cs ++ [.qcmGet] ++ [.qcmPost "NDI="], es, ws⟩⟩ :=
  rfl

/-- Under `envC1` the loop is still running after every iteration
budget: it never terminates. -/
theorem runLoopC1_outOfFuel (fuel : Nat) :
    ∀ (g p : Nat) (cs : List NetCall) (es : List EDEvent)
      (ws : List Dict),
      (runLoop envC1 loginBody250 "alice" fuel
        ⟨5, some cacheC1, g, p, ⟨cs, es, ws⟩⟩).isOutOfFuel = true := by
  induction fuel with
  | zero =>
    intro g p cs es ws
    rfl
  | succ n ih =>
    intro g p cs es ws
    exact ih (g + 1) (p + 1) (cs ++ [.qcmGet] ++ [.qcmPost "NDI="]) es ws

/-- When the first login reports 250, the cache loads, and the loop is
still running after `fuel` iterations, the whole body is still running. -/
theorem handshakeBody_outOfFuel (env : HandshakeEnv) (fuel : Nat)
    (login code : JValue) (cache : Option Dict) (s : LoopState)
    (h1 : get_response .jnull env.loginResp = .ok login)
    (h2 : pyGetItem login "code" = .ok code)
    (h3 : code.eqNum 250 = true)
    (h4 : env.cacheLoad = .ok cache)
    (h5 : runLoop env login env.username fuel
        ⟨5, cache, 0, 0, ⟨[.loginPost none], [], []⟩⟩ = .outOfFuel s) :
    handshakeBody env fuel = .outOfFuel s.trace := by
  simp [handshakeBody, h1, h2, h3, h4, h5]

/-- C1 (code bug): under `envC1` — the provider repeatedly rejecting the
cached single-candidate answer — the handshake is still running after
every iteration budget: the loop executes more than 5 iterations, never
raises `QCMError`, and never stops issuing network calls, contradicting
the specified 5-iteration bound. -/
theorem C1_nonterminating :
    ∀ fuel : Nat,
      (get_ecoledirecte_session envC1 fuel).isOutOfFuel = true := by
  intro fuel
  have h := runLoopC1_outOfFuel fuel 0 0 [.loginPost none] [] []
  cases hr : runLoop envC1 loginBody250 "alice" fuel
      ⟨5, some cacheC1, 0, 0, ⟨[.loginPost none], [], []⟩⟩ with
  | outOfFuel s =>
    have hb := handshakeBody_outOfFuel envC1 fuel loginBody250 (.jnum 250)
      (some cacheC1) s rfl rfl rfl rfl hr
    simp [get_ecoledirecte_session, hb, SessOutcome.isOutOfFuel]
  | exhausted s =>
    rw [hr] at h
    simp [LoopOutcome.isOutOfFuel] at h
  | found cn cv s =>
    rw [hr] at h
    simp [LoopOutcome.isOutOfFuel] at h
  | errOut e s =>
    rw [hr] at h
    simp [LoopOutcome.isOutOfFuel] at h
